import Mathlib

/-!
Shallow embedding of the Assignment Resolution & Enrollment Admission
subsystem of the LMS backend (routes/enrollments.js and the two copies of
the courses router holding `POST /courses/:id/assign`).

Ids are modelled as `String`; Prisma rows become structures; tables become
lists; `findFirst` becomes `List.find?`; `count` becomes `List.countP`.
Nullable columns are `Option`; JS falsy checks on ids are modelled by
`Option.isNone` on those fields.
-/

namespace LMS

abbrev Ident := String

/-- A row of the `coursesAssigned` table. -/
structure Assignment where
  courseId : Ident
  collegeId : Ident
  departmentId : Option Ident
  capacity : Option Nat
deriving Repr, DecidableEq

/-- A row of the `enrollment` table (fields the admission code touches). -/
structure Enrollment where
  id : Ident
  studentId : Ident
  courseId : Ident
  departmentId : Option Ident
  status : String
  startedAt : Option Nat
deriving Repr, DecidableEq

/-- A row of the `user` table (fields the admission code touches). -/
structure User where
  id : Ident
  email : String
  role : String
  collegeId : Option Ident
  departmentId : Option Ident
deriving Repr, DecidableEq

/-- A row of the `registration` table (fields the admission code touches). -/
structure Registration where
  email : String
  collegeId : Option Ident
  departmentId : Option Ident
  updatedAt : Nat
deriving Repr, DecidableEq

/-- A row of the `course` table (fields the admission code touches). -/
structure Course where
  id : Ident
  collegeId : Option Ident
deriving Repr, DecidableEq

/-- The stored `enrollment.statusConfig` setting value. A field is `some l`
when the stored JSON value is an array (of the strings `l`), and `none`
when the key is absent or not an array (`Array.isArray` is false). -/
structure RawStatusConfig where
  allowed : Option (List String)
  approved_like : Option (List String)
deriving Repr, DecidableEq

/-- The database state seen by the admission subsystem. `statusSetting`
is `none` when the setting row is absent or its value is falsy. -/
structure State where
  assignments : List Assignment
  enrollments : List Enrollment
  users : List User
  registrations : List Registration
  courses : List Course
  statusSetting : Option RawStatusConfig
deriving Repr, DecidableEq

/-- The result of `loadEnrollmentStatusConfig`. -/
structure StatusConfig where
  allowed : List String
  approved_like : List String
deriving Repr, DecidableEq

/-- JS whitespace trimmed by `String.prototype.trim` (the characters that
occur in this codebase's inputs). -/
def isJsWhitespace (c : Char) : Bool :=
  c == ' ' || c == '\t' || c == '\n' || c == '\r'

/-- Drop leading and trailing whitespace from a character list. -/
def trimChars (l : List Char) : List Char :=
  ((l.dropWhile isJsWhitespace).reverse.dropWhile isJsWhitespace).reverse

/-- `.trim()`. -/
def trimStr (s : String) : String := ⟨trimChars s.data⟩

/-- `.toUpperCase()` (ASCII inputs). -/
def toUpperStr (s : String) : String := ⟨s.data.map Char.toUpper⟩

/-- `normStatus` of routes/enrollments.js: trim then upper-case. -/
def normStatus (s : String) : String := toUpperStr (trimStr s)

/-- `loadEnrollmentStatusConfig`: defaults when the record (or its value)
is missing; otherwise each field is the stored array, or `[]` when the
stored value is not an array. -/
def loadEnrollmentStatusConfig (st : State) : StatusConfig :=
  match st.statusSetting with
  | none => ⟨["PENDING", "APPROVED", "REJECTED"], ["APPROVED"]⟩
  | some v => ⟨v.allowed.getD [], v.approved_like.getD []⟩

/-- `prisma.registration.findFirst({where:{email}, orderBy:{updatedAt:"desc"}})`:
the matching row with the largest `updatedAt` (first such row on ties). -/
def latestRegistration (st : State) (email : String) : Option Registration :=
  (st.registrations.filter (fun r => r.email == email)).foldl
    (fun acc r =>
      match acc with
      | none => some r
      | some b => if r.updatedAt > b.updatedAt then some r else some b)
    none

/-- The college/department pair returned by `getStudentOrgContext`. -/
structure OrgContext where
  collegeId : Option Ident
  departmentId : Option Ident
deriving Repr, DecidableEq

/-- `getStudentOrgContext(userLike)`: empty email gives `none`, otherwise
the latest registration row for that email (or `none`). -/
def getStudentOrgContext (st : State) (email : String) : Option OrgContext :=
  if email == "" then none
  else
    match latestRegistration st email with
    | none => none
    | some r => some ⟨r.collegeId, r.departmentId⟩

/-- `findAssignmentForContext(courseId, collegeId, departmentId)`:
department-scoped row first when a department is given, then the
college-wide row (`departmentId: null`); `null` when `collegeId` is falsy. -/
def findAssignmentForContext (st : State) (courseId : Ident)
    (collegeId : Option Ident) (departmentId : Option Ident) :
    Option Assignment :=
  match collegeId with
  | none => none
  | some cid =>
    let deptAssign :=
      match departmentId with
      | some d =>
        st.assignments.find? (fun a =>
          a.courseId == courseId && a.collegeId == cid &&
            a.departmentId == some d)
      | none => none
    match deptAssign with
    | some a => some a
    | none =>
      st.assignments.find? (fun a =>
        a.courseId == courseId && a.collegeId == cid &&
          a.departmentId == none)

/-- `countApprovedLikeAtDepartment`: 0 when `departmentId` is falsy, else
the count of enrollments matching course, department and an approved-like
status. -/
def countApprovedLikeAtDepartment (st : State) (courseId : Ident)
    (departmentId : Option Ident) (approvedLikeStatuses : List String) : Nat :=
  match departmentId with
  | none => 0
  | some d =>
    st.enrollments.countP (fun e =>
      e.courseId == courseId && e.departmentId == some d &&
        approvedLikeStatuses.contains e.status)

/-- `countApprovedLikeAtCollege`: gathers approved-like enrollments of the
course, resolves each student's latest registration college via the user's
email, and counts those whose latest college equals `collegeId`. -/
def countApprovedLikeAtCollege (st : State) (courseId : Ident)
    (collegeId : Ident) (approvedLikeStatuses : List String) : Nat :=
  if approvedLikeStatuses.isEmpty then 0
  else
    let approvedRows := st.enrollments.filter (fun e =>
      e.courseId == courseId && approvedLikeStatuses.contains e.status)
    approvedRows.countP (fun row =>
      match st.users.find? (fun u => u.id == row.studentId) with
      | none => false
      | some stu =>
        match latestRegistration st stu.email with
        | none => false
        | some r => r.collegeId == some collegeId)

/-- `findAssignmentForCollege` as defined in routes/enrollments.js
(the copy used by the bulk handler): the first `coursesAssigned` row for
(courseId, collegeId) at any scope; `null` when either id is falsy. -/
def findAssignmentForCollege (st : State) (courseId : Ident)
    (collegeId : Option Ident) : Option Assignment :=
  match collegeId with
  | none => none
  | some cid =>
    st.assignments.find? (fun a => a.courseId == courseId && a.collegeId == cid)

/-- `findAssignmentForCollege` as defined in the other copy of
routes/enrollments.js: first a formal `coursesAssigned` row for
(courseId, collegeId); failing that, a course whose direct `collegeId`
equals the queried college yields a virtual assignment with no capacity. -/
def findAssignmentForCollegeWithVirtual (st : State) (courseId : Ident)
    (collegeId : Option Ident) : Option Assignment :=
  match collegeId with
  | none => none
  | some cid =>
    match st.assignments.find? (fun a =>
        a.courseId == courseId && a.collegeId == cid) with
    | some a => some a
    | none =>
      match st.courses.find? (fun c => c.id == courseId) with
      | none => none
      | some c =>
        if c.collegeId == some cid then
          some ⟨courseId, cid, none, none⟩
        else none

/-- `up`: `String(s||"").toUpperCase()`. -/
def up (s : String) : String := toUpperStr s

/-- Character class `[A-Z0-9]` of the `norm` regex (ASCII inputs). -/
def isAlnumUpper (c : Char) : Bool := c.isUpper || c.isDigit

/-- Replace each maximal run of non-`[A-Z0-9]` characters by one `_`
(the `.replace(/[^A-Z0-9]+/g, "_")` step of `norm`). `inRun` records
whether the previous character was part of such a run. -/
def collapseRuns : List Char → Bool → List Char
  | [], _ => []
  | c :: rest, inRun =>
    if isAlnumUpper c then c :: collapseRuns rest false
    else if inRun then collapseRuns rest true
    else '_' :: collapseRuns rest true

/-- `norm` of routes/enrollments.js: upper-case, then collapse runs of
non-alphanumerics to `_`. -/
def normRole (s : String) : String := ⟨collapseRuns (toUpperStr s).data false⟩

def isAdminRole (role : String) : Bool :=
  normRole role == "ADMIN" || normRole role == "SUPER_ADMIN"

def isInstructorRole (role : String) : Bool := normRole role == "INSTRUCTOR"

def isStudentRole (role : String) : Bool := normRole role == "STUDENT"

/-- The email of the student user row behind an enrollment (`""` when the
user row is absent; the schema's foreign keys make that case unreachable). -/
def studentEmail (st : State) (studentId : Ident) : String :=
  match st.users.find? (fun u => u.id == studentId) with
  | none => ""
  | some u => u.email

/-- Typed rendering of the error responses of the single-enrollment
admission handler `PATCH /enrollment-requests/:id`. -/
inductive AdmissionError where
  | invalidStatus
  | notFound
  | notAssigned
  | capacityExceeded (used capacity : Nat)
deriving Repr, DecidableEq

/-- The `collegeId` the single-enrollment handler feeds to
`findAssignmentForContext`: `studentOrg?.collegeId || null`. -/
def admissionCollege (st : State) (enr : Enrollment) : Option Ident :=
  (getStudentOrgContext st (studentEmail st enr.studentId)).bind
    (fun o => o.collegeId)

/-- The `deptId` the single-enrollment handler feeds to
`findAssignmentForContext`:
`enr.departmentId || studentOrg?.departmentId || null`. -/
def admissionDept (st : State) (enr : Enrollment) : Option Ident :=
  match enr.departmentId with
  | some d => some d
  | none =>
    (getStudentOrgContext st (studentEmail st enr.studentId)).bind
      (fun o => o.departmentId)

/-- The usage the single-enrollment handler computes for an assignment
with a capacity: department-level when the assignment is
department-scoped, college-wide otherwise. -/
def usageAtAssignmentScope (st : State) (enr : Enrollment) (a : Assignment)
    (approvedLike : List String) : Nat :=
  match a.departmentId with
  | some d => countApprovedLikeAtDepartment st enr.courseId (some d) approvedLike
  | none => countApprovedLikeAtCollege st enr.courseId a.collegeId approvedLike

/-- The read phase of `PATCH /enrollment-requests/:id`: status validation,
enrollment lookup, assignment resolution and the capacity check, exactly as
the handler performs them before its single `enrollment.update`. Returns
the enrollment to update on success. -/
def admissionCheck (st : State) (id : Ident) (nextStatus : String) :
    Except AdmissionError Enrollment :=
  let next := normStatus nextStatus
  let cfg := loadEnrollmentStatusConfig st
  if !(cfg.allowed.map normStatus).contains next then .error .invalidStatus
  else
    match st.enrollments.find? (fun e => e.id == id) with
    | none => .error .notFound
    | some enr =>
      if (cfg.approved_like.map normStatus).contains next then
        match findAssignmentForContext st enr.courseId
            (admissionCollege st enr) (admissionDept st enr) with
        | none => .error .notAssigned
        | some assignment =>
          match assignment.capacity with
          | none => .ok enr
          | some cap =>
            let used := usageAtAssignmentScope st enr assignment
              (cfg.approved_like.map normStatus)
            if used ≥ cap then .error (.capacityExceeded used cap)
            else .ok enr
      else .ok enr

/-- The write phase of `PATCH /enrollment-requests/:id`:
`enrollment.update({data:{status: next, startedAt: enr.startedAt ?? now}})`. -/
def applyTransition (st : State) (enr : Enrollment) (next : String)
    (now : Nat) : State :=
  { st with
    enrollments := st.enrollments.map (fun e =>
      if e.id == enr.id then
        { e with status := next, startedAt := some (enr.startedAt.getD now) }
      else e) }

/-- The whole `PATCH /enrollment-requests/:id` handler: the read phase
followed, on success, by the write phase. Error responses leave the store
untouched. -/
def transitionEnrollment (st : State) (id : Ident) (nextStatus : String)
    (now : Nat) : State × Except AdmissionError Enrollment :=
  match admissionCheck st id nextStatus with
  | .error e => (st, .error e)
  | .ok enr =>
    let next := normStatus nextStatus
    (applyTransition st enr next now,
     .ok { enr with status := next, startedAt := some (enr.startedAt.getD now) })

/-- The interleaving of two concurrent `PATCH /enrollment-requests/:id`
requests in which both handlers run their read phase against the same
snapshot before either commits its write — possible because the handler
wraps the count and the update in no transaction or lock. -/
def raceTwoApprovals (st : State) (id1 id2 : Ident) (nextStatus : String)
    (now : Nat) : State :=
  let next := normStatus nextStatus
  match admissionCheck st id1 nextStatus, admissionCheck st id2 nextStatus with
  | .ok e1, .ok e2 => applyTransition (applyTransition st e1 next now) e2 next now
  | .ok e1, .error _ => applyTransition st e1 next now
  | .error _, .ok e2 => applyTransition st e2 next now
  | .error _, .error _ => st

/-- `getInstructorAffiliation`: the user's direct `collegeId` and a
singleton (or empty) list of department ids. -/
def getInstructorAffiliation (st : State) (userId : Ident) :
    Option (Option Ident × List Ident) :=
  match st.users.find? (fun u => u.id == userId) with
  | none => none
  | some u =>
    some (u.collegeId,
      match u.departmentId with
      | some d => [d]
      | none => [])

/-- `isInstructorEligibleForCourse` (routes/enrollments.js copy used by the
bulk handler): scan the course's assignments for one matching the
instructor's department, or a college-wide one matching their college. -/
def isInstructorEligibleForCourse (st : State) (userId courseId : Ident) :
    Bool :=
  match getInstructorAffiliation st userId with
  | none => false
  | some (instructorCollegeId, deptIds) =>
    (st.assignments.filter (fun a => a.courseId == courseId)).any (fun a =>
      match a.departmentId with
      | some d => deptIds.contains d
      | none =>
        match instructorCollegeId with
        | some cid => a.collegeId == cid
        | none => false)

/-- `ensureCanModerateCourse`: admins pass, instructors defer to course
eligibility, all other roles fail. -/
def ensureCanModerateCourse (st : State) (actor : User) (courseId : Ident) :
    Bool :=
  if isAdminRole actor.role then true
  else if isInstructorRole actor.role then
    isInstructorEligibleForCourse st actor.id courseId
  else false

/-- Typed rendering of the error responses of the bulk handler
`PATCH /enrollment-requests:bulk`. -/
inductive BulkError where
  | forbiddenRole
  | badRequest
  | invalidStatus
  | forbiddenCourse (courseId : Ident)
  | notAssigned (enrollmentId : Ident)
  | capacityExceeded (courseId collegeId : Ident) (used capacity : Nat)
deriving Repr, DecidableEq

/-- A bucket of the bulk handler: key `courseId:collegeId`, the
enrollments collected under it, and the assignment found for the first
of them. -/
structure Bucket where
  key : String
  list : List Enrollment
  assignment : Assignment
deriving Repr, DecidableEq

/-- `buckets.get(key).list.push(enr)` / `buckets.set(key, {list:[],assignment})`:
append to the existing bucket, else append a new bucket (Map iteration
order is insertion order). -/
def addToBuckets (buckets : List Bucket) (key : String) (enr : Enrollment)
    (a : Assignment) : List Bucket :=
  if buckets.any (fun b => b.key == key) then
    buckets.map (fun b =>
      if b.key == key then { b with list := b.list ++ [enr] } else b)
  else buckets ++ [⟨key, [enr], a⟩]

/-- The bucket-building loop of the bulk handler: resolve each student's
org context, find the course's assignment for that college (any scope),
fail on the first enrollment with none, and group by `courseId:collegeId`. -/
def buildBuckets (st : State) : List Enrollment → List Bucket →
    Except BulkError (List Bucket)
  | [], acc => .ok acc
  | enr :: rest, acc =>
    let org := getStudentOrgContext st (studentEmail st enr.studentId)
    match findAssignmentForCollege st enr.courseId
        (org.bind (fun o => o.collegeId)) with
    | none => .error (.notAssigned enr.id)
    | some a =>
      buildBuckets st rest
        (addToBuckets acc (enr.courseId ++ ":" ++ a.collegeId) enr a)

/-- The capacity-validation loop of the bulk handler: for each bucket with
a capacity, recompute college-wide usage and fail when
`used + list.length > capacity`. Returns the first failing bucket's
assignment, usage and capacity. -/
def firstCapacityFailure (st : State) (approvedLike : List String) :
    List Bucket → Option (Assignment × Nat × Nat)
  | [] => none
  | b :: rest =>
    match b.assignment.capacity with
    | none => firstCapacityFailure st approvedLike rest
    | some cap =>
      let used := countApprovedLikeAtCollege st b.assignment.courseId
        b.assignment.collegeId approvedLike
      if used + b.list.length > cap then some (b.assignment, used, cap)
      else firstCapacityFailure st approvedLike rest

/-- The whole `PATCH /enrollment-requests:bulk` handler. All validation
(role, status, per-course eligibility, bucket building, capacity) happens
before the `$transaction` that writes the new statuses; any failure
returns before any write. -/
def bulkTransition (st : State) (actor : User) (ids : List Ident)
    (nextStatus : String) (now : Nat) : State × Except BulkError Nat :=
  if !isInstructorRole actor.role then (st, .error .forbiddenRole)
  else if ids.isEmpty then (st, .error .badRequest)
  else
    let cfg := loadEnrollmentStatusConfig st
    if !cfg.allowed.contains nextStatus then (st, .error .invalidStatus)
    else
      let enrs := st.enrollments.filter (fun e => ids.contains e.id)
      if enrs.isEmpty then (st, .ok 0)
      else
        match enrs.find? (fun enr =>
            !ensureCanModerateCourse st actor enr.courseId) with
        | some enr => (st, .error (.forbiddenCourse enr.courseId))
        | none =>
          if cfg.approved_like.contains nextStatus then
            match buildBuckets st enrs [] with
            | .error e => (st, .error e)
            | .ok buckets =>
              match firstCapacityFailure st cfg.approved_like.eraseDups
                  buckets with
              | some (a, used, cap) =>
                (st, .error (.capacityExceeded a.courseId a.collegeId used cap))
              | none =>
                ({ st with
                    enrollments := st.enrollments.map (fun e =>
                      if ids.contains e.id then
                        { e with status := nextStatus,
                                 startedAt := some (e.startedAt.getD now) }
                      else e) },
                 .ok enrs.length)
          else
            ({ st with
                enrollments := st.enrollments.map (fun e =>
                  if ids.contains e.id then { e with status := nextStatus }
                  else e) },
             .ok enrs.length)

/-- `isSuperAdmin` of the courses routers. -/
def isSuperAdminUser (u : User) : Bool := up u.role == "SUPERADMIN"

/-- `isCollegeAdmin` of the courses routers. -/
def isCollegeAdminUser (u : User) : Bool := up u.role == "ADMIN"

/-- `assertAdminBelongsToCollege`: a college admin whose own `collegeId`
equals the requested one (`String(user.collegeId) === String(collegeId)`;
a user without a college never matches a real college id). -/
def assertAdminBelongsToCollege (u : User) (collegeId : Ident) : Bool :=
  isCollegeAdminUser u &&
    (match u.collegeId with
     | some c => c == collegeId
     | none => false)

/-- Typed rendering of the error responses of `POST /courses/:id/assign`. -/
inductive AssignError where
  | badRequest
  | forbiddenNotCollegeAdmin
  | forbiddenDeptRequired
  | forbiddenRole
  | conflictDeptAlreadyAssigned
  | conflictCollegeLevelExists
  | conflictDeptLevelExists
deriving Repr, DecidableEq

/-- `coursesAssigned.update({where:{id: existing.id}, data:{capacity}})`
for the row with the given composite-unique triple. -/
def setCapacityAt (st : State) (courseId collegeId : Ident)
    (departmentId : Option Ident) (capacity : Option Nat) :
    State × Assignment :=
  ({ st with
      assignments := st.assignments.map (fun a =>
        if a.courseId == courseId && a.collegeId == collegeId &&
            a.departmentId == departmentId then
          { a with capacity := capacity }
        else a) },
   ⟨courseId, collegeId, departmentId, capacity⟩)

/-- `coursesAssigned.upsert` on the composite-unique triple: update the
capacity of the existing row, else insert a new one. -/
def upsertAssignment (st : State) (courseId collegeId : Ident)
    (departmentId : Option Ident) (capacity : Option Nat) :
    State × Assignment :=
  match st.assignments.find? (fun a =>
      a.courseId == courseId && a.collegeId == collegeId &&
        a.departmentId == departmentId) with
  | some _ => setCapacityAt st courseId collegeId departmentId capacity
  | none =>
    let created : Assignment := ⟨courseId, collegeId, departmentId, capacity⟩
    ({ st with assignments := st.assignments ++ [created] }, created)

/-- The first copy of `POST /courses/:id/assign` (the courses router with
trimming and explicit exclusivity checks in its superadmin branch). -/
def assignCourseFirst (st : State) (actor : User) (courseId : Ident)
    (rawCollegeId : String) (rawDepartmentId : Option String)
    (capacity : Option Nat) : State × Except AssignError Assignment :=
  if courseId == "" then (st, .error .badRequest)
  else if trimStr rawCollegeId == "" then (st, .error .badRequest)
  else
    let collegeId := trimStr rawCollegeId
    let departmentId : Option Ident :=
      match rawDepartmentId with
      | some s => if trimStr s == "" then none else some (trimStr s)
      | none => none
    if isCollegeAdminUser actor then
      if !assertAdminBelongsToCollege actor collegeId then
        (st, .error .forbiddenNotCollegeAdmin)
      else
        match departmentId with
        | none => (st, .error .forbiddenDeptRequired)
        | some d =>
          match st.assignments.find? (fun a =>
              a.courseId == courseId && a.collegeId == collegeId &&
                a.departmentId == some d) with
          | some _ => (st, .error .conflictDeptAlreadyAssigned)
          | none =>
            let created : Assignment := ⟨courseId, collegeId, some d, capacity⟩
            ({ st with assignments := st.assignments ++ [created] },
             .ok created)
    else if isSuperAdminUser actor then
      match departmentId with
      | some d =>
        match st.assignments.find? (fun a =>
            a.courseId == courseId && a.collegeId == collegeId &&
              a.departmentId == none) with
        | some _ => (st, .error .conflictCollegeLevelExists)
        | none =>
          match st.assignments.find? (fun a =>
              a.courseId == courseId && a.collegeId == collegeId &&
                a.departmentId == some d) with
          | some _ =>
            let r := setCapacityAt st courseId collegeId (some d) capacity
            (r.1, .ok r.2)
          | none =>
            let created : Assignment := ⟨courseId, collegeId, some d, capacity⟩
            ({ st with assignments := st.assignments ++ [created] },
             .ok created)
      | none =>
        match st.assignments.find? (fun a =>
            a.courseId == courseId && a.collegeId == collegeId &&
              a.departmentId.isSome) with
        | some _ => (st, .error .conflictDeptLevelExists)
        | none =>
          match st.assignments.find? (fun a =>
              a.courseId == courseId && a.collegeId == collegeId &&
                a.departmentId == none) with
          | some _ =>
            let r := setCapacityAt st courseId collegeId none capacity
            (r.1, .ok r.2)
          | none =>
            let created : Assignment := ⟨courseId, collegeId, none, capacity⟩
            ({ st with assignments := st.assignments ++ [created] },
             .ok created)
    else (st, .error .forbiddenRole)

/-- The second copy of `POST /courses/:id/assign` (the courses router whose
superadmin branch upserts at either granularity with no exclusivity
check). -/
def assignCourseSecond (st : State) (actor : User) (courseId : Ident)
    (collegeId : String) (departmentId : Option Ident)
    (capacity : Option Nat) : State × Except AssignError Assignment :=
  if collegeId == "" then (st, .error .badRequest)
  else if isCollegeAdminUser actor then
    if !assertAdminBelongsToCollege actor collegeId then
      (st, .error .forbiddenNotCollegeAdmin)
    else
      match departmentId with
      | none => (st, .error .forbiddenDeptRequired)
      | some d =>
        match st.assignments.find? (fun a =>
            a.courseId == courseId && a.collegeId == collegeId &&
              a.departmentId == some d) with
        | some _ => (st, .error .conflictDeptAlreadyAssigned)
        | none =>
          let r := upsertAssignment st courseId collegeId (some d) capacity
          (r.1, .ok r.2)
  else if isSuperAdminUser actor then
    match departmentId with
    | none =>
      let r := upsertAssignment st courseId collegeId none capacity
      (r.1, .ok r.2)
    | some d =>
      let r := upsertAssignment st courseId collegeId (some d) capacity
      (r.1, .ok r.2)
  else (st, .error .forbiddenRole)

/-- There is a college-wide assignment row (`departmentId` null) for the
pair. -/
def hasCollegeWideRow (st : State) (courseId collegeId : Ident) : Bool :=
  st.assignments.any (fun a =>
    a.courseId == courseId && a.collegeId == collegeId &&
      a.departmentId == none)

/-- There is a department-scoped assignment row for the pair. -/
def hasDeptScopedRow (st : State) (courseId collegeId : Ident) : Bool :=
  st.assignments.any (fun a =>
    a.courseId == courseId && a.collegeId == collegeId &&
      a.departmentId.isSome)

/-- The exclusivity invariant of the spec: for each (courseId,
collegeId) pair, the college-wide row and department-scoped rows never
coexist. -/
def ExclusivityInvariant (st : State) : Prop :=
  ∀ courseId collegeId : Ident,
    ¬(hasCollegeWideRow st courseId collegeId = true ∧
      hasDeptScopedRow st courseId collegeId = true)

/-- Typed rendering of the error responses of
`POST /courses/:courseId/enrollment-requests`. -/
inductive RequestError where
  | badRequest
  | forbiddenNotStudent
  | noRegistrationCollege
  | notAssigned
deriving Repr, DecidableEq

/-- The `POST /courses/:courseId/enrollment-requests` handler (student
self-request). When an enrollment for (courseId, studentId) already exists
it is returned as the response with no write; otherwise a new enrollment
is created in the configured pending status. `newId` is the id the store
would generate for the created row. -/
def requestEnrollment (st : State) (actor : User) (courseId : Ident)
    (newId : Ident) : State × Except RequestError Enrollment :=
  if !isStudentRole actor.role then (st, .error .forbiddenNotStudent)
  else
    let studentId := actor.id
    match st.enrollments.find? (fun e =>
        e.courseId == courseId && e.studentId == studentId) with
    | some existing => (st, .ok existing)
    | none =>
      let org := getStudentOrgContext st actor.email
      match org.bind (fun o => o.collegeId) with
      | none => (st, .error .noRegistrationCollege)
      | some cid =>
        match findAssignmentForCollege st courseId (some cid) with
        | none => (st, .error .notAssigned)
        | some _ =>
          let cfg := loadEnrollmentStatusConfig st
          let fallback :=
            match cfg.allowed.find? (fun s =>
                !cfg.approved_like.contains s) with
            | some s => s
            | none => ""
          let fallback2 :=
            if fallback == "" then
              match cfg.allowed.head? with
              | some s => s
              | none => ""
            else fallback
          let pendingStatus :=
            if cfg.allowed.contains "PENDING" then "PENDING"
            else if fallback2 == "" then "PENDING" else fallback2
          let created : Enrollment :=
            ⟨newId, studentId, courseId,
             (org.bind (fun o => o.departmentId)), pendingStatus, none⟩
          ({ st with enrollments := st.enrollments ++ [created] },
           .ok created)

/-! Concrete store states used to exercise the handlers. -/

/-- Scenario A: college-wide assignment with capacity 2, two approved
enrollments, a third pending one, all students registered at college O1. -/
def stScenarioA : State :=
  { assignments := [⟨"C1", "O1", none, some 2⟩]
    enrollments :=
      [⟨"e1", "s1", "C1", none, "APPROVED", some 0⟩,
       ⟨"e2", "s2", "C1", none, "APPROVED", some 0⟩,
       ⟨"e3", "s3", "C1", none, "PENDING", none⟩]
    users :=
      [⟨"s1", "s1@u.edu", "STUDENT", some "O1", none⟩,
       ⟨"s2", "s2@u.edu", "STUDENT", some "O1", none⟩,
       ⟨"s3", "s3@u.edu", "STUDENT", some "O1", none⟩]
    registrations :=
      [⟨"s1@u.edu", some "O1", none, 1⟩,
       ⟨"s2@u.edu", some "O1", none, 1⟩,
       ⟨"s3@u.edu", some "O1", none, 1⟩]
    courses := [⟨"C1", some "O1"⟩]
    statusSetting := none }

/-- Scenario C: a pending enrollment whose course has no assignment at
the student's college. -/
def stNoAssign : State :=
  { assignments := []
    enrollments := [⟨"e1", "s1", "C1", none, "PENDING", none⟩]
    users := [⟨"s1", "s1@u.edu", "STUDENT", some "O1", none⟩]
    registrations := [⟨"s1@u.edu", some "O1", none, 1⟩]
    courses := []
    statusSetting := none }

/-- An instructor of college O1 with no department. -/
def instructorO1 : User := ⟨"i1", "i1@u.edu", "INSTRUCTOR", some "O1", none⟩

/-- Scenario D: three pending enrollments bulk-approved against a
college-wide capacity of 2. -/
def stScenarioD : State :=
  { assignments := [⟨"C1", "O1", none, some 2⟩]
    enrollments :=
      [⟨"e1", "s1", "C1", none, "PENDING", none⟩,
       ⟨"e2", "s2", "C1", none, "PENDING", none⟩,
       ⟨"e3", "s3", "C1", none, "PENDING", none⟩]
    users :=
      [⟨"s1", "s1@u.edu", "STUDENT", some "O1", none⟩,
       ⟨"s2", "s2@u.edu", "STUDENT", some "O1", none⟩,
       ⟨"s3", "s3@u.edu", "STUDENT", some "O1", none⟩,
       instructorO1]
    registrations :=
      [⟨"s1@u.edu", some "O1", none, 1⟩,
       ⟨"s2@u.edu", some "O1", none, 1⟩,
       ⟨"s3@u.edu", some "O1", none, 1⟩]
    courses := [⟨"C1", some "O1"⟩]
    statusSetting := none }

/-- An instructor of college O1, department D1. -/
def instructorD1 : User := ⟨"i2", "i2@u.edu", "INSTRUCTOR", some "O1", some "D1"⟩

/-- A department-scoped assignment (D1, capacity 1); one enrollment already
approved in department D2 of the same college; a pending enrollment in D1. -/
def stBulkDeptScope : State :=
  { assignments := [⟨"C1", "O1", some "D1", some 1⟩]
    enrollments :=
      [⟨"x1", "sx", "C1", some "D2", "APPROVED", some 0⟩,
       ⟨"e1", "s1", "C1", some "D1", "PENDING", none⟩]
    users :=
      [⟨"sx", "sx@u.edu", "STUDENT", some "O1", some "D2"⟩,
       ⟨"s1", "s1@u.edu", "STUDENT", some "O1", some "D1"⟩,
       instructorD1]
    registrations :=
      [⟨"sx@u.edu", some "O1", some "D2", 1⟩,
       ⟨"s1@u.edu", some "O1", some "D1", 1⟩]
    courses := [⟨"C1", some "O1"⟩]
    statusSetting := none }

/-- Two pending enrollments racing for the single slot of a capacity-1
college-wide assignment. -/
def stRace : State :=
  { assignments := [⟨"C1", "O1", none, some 1⟩]
    enrollments :=
      [⟨"e1", "s1", "C1", none, "PENDING", none⟩,
       ⟨"e2", "s2", "C1", none, "PENDING", none⟩]
    users :=
      [⟨"s1", "s1@u.edu", "STUDENT", some "O1", none⟩,
       ⟨"s2", "s2@u.edu", "STUDENT", some "O1", none⟩]
    registrations :=
      [⟨"s1@u.edu", some "O1", none, 1⟩,
       ⟨"s2@u.edu", some "O1", none, 1⟩]
    courses := [⟨"C1", some "O1"⟩]
    statusSetting := none }

/-- A college admin of O1. -/
def adminO1 : User := ⟨"a1", "a1@u.edu", "ADMIN", some "O1", none⟩

/-- A platform superadmin. -/
def superAdmin : User := ⟨"sa", "sa@u.edu", "SUPERADMIN", none, none⟩

/-- Scenario B: the college-wide assignment row for (C1, O1) exists. -/
def stCollegeWideRow : State :=
  { assignments := [⟨"C1", "O1", none, some 5⟩]
    enrollments := [], users := [], registrations := [], courses := []
    statusSetting := none }

/-- A department-scoped assignment row for the exact triple (C1, O1, D1). -/
def stDeptRow : State :=
  { assignments := [⟨"C1", "O1", some "D1", some 3⟩]
    enrollments := [], users := [], registrations := [], courses := []
    statusSetting := none }

/-- No assignment rows, but course C1 is authored directly for O1. -/
def stDirectCourse : State :=
  { assignments := [], enrollments := [], users := [], registrations := []
    courses := [⟨"C1", some "O1"⟩]
    statusSetting := none }

/-- The requesting student of stDupRequest. -/
def studentS1 : User := ⟨"s1", "s1@u.edu", "STUDENT", some "O1", none⟩

/-- A student who already has an enrollment for the course. -/
def stDupRequest : State :=
  { assignments := [⟨"C1", "O1", none, some 10⟩]
    enrollments := [⟨"e0", "s1", "C1", none, "PENDING", none⟩]
    users := [studentS1]
    registrations := [⟨"s1@u.edu", some "O1", none, 1⟩]
    courses := [⟨"C1", some "O1"⟩]
    statusSetting := none }

/-- A status-config record whose stored `allowed` is not an array. -/
def stMalformedAllowed : State :=
  { assignments := [⟨"C1", "O1", none, some 2⟩]
    enrollments := [⟨"e1", "s1", "C1", none, "PENDING", none⟩]
    users := [⟨"s1", "s1@u.edu", "STUDENT", some "O1", none⟩]
    registrations := [⟨"s1@u.edu", some "O1", none, 1⟩]
    courses := []
    statusSetting := some ⟨none, some ["APPROVED"]⟩ }

/-- A status-config record whose stored `approved_like` is not an array. -/
def stMalformedApprovedLike : State :=
  { assignments := [⟨"C1", "O1", none, some 0⟩]
    enrollments := [⟨"e1", "s1", "C1", none, "PENDING", none⟩]
    users := [⟨"s1", "s1@u.edu", "STUDENT", some "O1", none⟩]
    registrations := [⟨"s1@u.edu", some "O1", none, 1⟩]
    courses := []
    statusSetting := some ⟨some ["PENDING", "APPROVED", "REJECTED"], none⟩ }

/-! Theorems about the admission subsystem. -/

/-- C1: for every transition to an approved-like status where the resolved
effective assignment has a capacity, usage is counted at the assignment's
own scope (department-level when it is department-scoped, college-wide
otherwise, via `usageAtAssignmentScope`), and when `used ≥ capacity` the
handler answers `CapacityExceededError(used, capacity)` and leaves the
store — in particular the enrollment's status — unchanged. -/
theorem transition_capacity_exceeded_rejects
    (st : State) (id nextStatus : String) (now : Nat)
    (enr : Enrollment) (a : Assignment) (cap : Nat)
    (hallow : ((loadEnrollmentStatusConfig st).allowed.map normStatus).contains
      (normStatus nextStatus) = true)
    (hfind : st.enrollments.find? (fun e => e.id == id) = some enr)
    (happr : ((loadEnrollmentStatusConfig st).approved_like.map normStatus).contains
      (normStatus nextStatus) = true)
    (hassign : findAssignmentForContext st enr.courseId
      (admissionCollege st enr) (admissionDept st enr) = some a)
    (hcap : a.capacity = some cap)
    (hused : usageAtAssignmentScope st enr a
      ((loadEnrollmentStatusConfig st).approved_like.map normStatus) ≥ cap) :
    transitionEnrollment st id nextStatus now =
      (st, .error (.capacityExceeded
        (usageAtAssignmentScope st enr a
          ((loadEnrollmentStatusConfig st).approved_like.map normStatus)) cap)) := by
  unfold transitionEnrollment admissionCheck
  simp only [hallow, Bool.not_true, if_false, hfind, happr, if_true, hassign, hcap]
  simp [hused]

/-- C1 witness: Scenario A — capacity 2, two approved enrollments; the
third approval attempt fails with `CapacityExceededError(2, 2)` and the
state is unchanged. -/
theorem transition_capacity_exceeded_rejects_witness :
    transitionEnrollment stScenarioA "e3" "APPROVED" 5 =
      (stScenarioA, .error (.capacityExceeded 2 2)) := by
  have h := transition_capacity_exceeded_rejects stScenarioA "e3" "APPROVED" 5
    ⟨"e3", "s3", "C1", none, "PENDING", none⟩ ⟨"C1", "O1", none, some 2⟩ 2
    (by decide) (by decide) (by decide) (by decide) (by decide) (by decide)
  exact h.trans (by rfl)

/-- C6: for every transition to an approved-like status where no effective
assignment resolves for the student's college/department context, the
handler fails with `NotAssignedError` and the store — in particular the
enrollment's status — is unchanged. -/
theorem transition_not_assigned_rejects
    (st : State) (id nextStatus : String) (now : Nat) (enr : Enrollment)
    (hallow : ((loadEnrollmentStatusConfig st).allowed.map normStatus).contains
      (normStatus nextStatus) = true)
    (hfind : st.enrollments.find? (fun e => e.id == id) = some enr)
    (happr : ((loadEnrollmentStatusConfig st).approved_like.map normStatus).contains
      (normStatus nextStatus) = true)
    (hassign : findAssignmentForContext st enr.courseId
      (admissionCollege st enr) (admissionDept st enr) = none) :
    transitionEnrollment st id nextStatus now = (st, .error .notAssigned) := by
  unfold transitionEnrollment admissionCheck
  simp only [hallow, Bool.not_true, if_false, hfind, happr, if_true, hassign]
  simp

/-- C6 witness: Scenario C — approving an enrollment for a course with no
assignment at the student's college answers `NotAssignedError` and changes
nothing. -/
theorem transition_not_assigned_rejects_witness :
    transitionEnrollment stNoAssign "e1" "APPROVED" 5 =
      (stNoAssign, .error .notAssigned) :=
  transition_not_assigned_rejects stNoAssign "e1" "APPROVED" 5
    ⟨"e1", "s1", "C1", none, "PENDING", none⟩
    (by decide) (by decide) (by decide) (by decide)

/-- Every run of the bulk handler either leaves the store untouched or
answers `ok`: all validation precedes the transaction that writes. -/
theorem bulk_state_or_ok (st : State) (actor : User) (ids : List Ident)
    (nextStatus : String) (now : Nat) :
    (bulkTransition st actor ids nextStatus now).1 = st ∨
      ∃ n, (bulkTransition st actor ids nextStatus now).2 = Except.ok n := by
  unfold bulkTransition
  dsimp only
  repeat' split
  all_goals simp

/-- C2: the bulk handler validates every group's capacity condition before
any status write; when the batch fails — in particular with
`CapacityExceededError` — zero enrollments change status (the store is
returned unchanged). -/
theorem bulk_error_leaves_state_unchanged
    (st : State) (actor : User) (ids : List Ident) (nextStatus : String)
    (now : Nat) (e : BulkError)
    (h : (bulkTransition st actor ids nextStatus now).2 = .error e) :
    (bulkTransition st actor ids nextStatus now).1 = st := by
  rcases bulk_state_or_ok st actor ids nextStatus now with h1 | ⟨n, h2⟩
  · exact h1
  · rw [h] at h2
    exact absurd h2 (by simp)

/-- C2 witness: Scenario D — bulk-approving three enrollments against a
capacity of 2 rejects the whole batch with `CapacityExceededError`
(`used + 3 > 2` with `used = 0`) and all three remain in their prior
status. -/
theorem bulk_error_leaves_state_unchanged_witness :
    (bulkTransition stScenarioD instructorO1 ["e1", "e2", "e3"] "APPROVED" 5).2 =
        .error (.capacityExceeded "C1" "O1" 0 2) ∧
      (bulkTransition stScenarioD instructorO1 ["e1", "e2", "e3"] "APPROVED" 5).1 =
        stScenarioD :=
  ⟨by rfl,
   bulk_error_leaves_state_unchanged stScenarioD instructorO1 ["e1", "e2", "e3"]
     "APPROVED" 5 (.capacityExceeded "C1" "O1" 0 2) (by rfl)⟩

/-- The bucket-building loop of the bulk handler can only fail with the
not-assigned error. -/
theorem buildBuckets_error_notAssigned (st : State) :
    ∀ (l : List Enrollment) (acc : List Bucket) (e : BulkError),
      buildBuckets st l acc = .error e → ∃ i, e = .notAssigned i := by
  intro l
  induction l with
  | nil => intro acc e h; simp [buildBuckets] at h
  | cons enr rest ih =>
    intro acc e h
    unfold buildBuckets at h
    dsimp only at h
    split at h
    · simp at h
      exact ⟨enr.id, h.symm⟩
    · exact ih _ e h

/-- Whatever bucket the capacity-validation loop rejects, the usage it
reports is the college-wide count for that bucket's assignment; the loop
never counts at department scope. -/
theorem firstCapacityFailure_college_count (st : State) (al : List String) :
    ∀ (bs : List Bucket) (a : Assignment) (used cap : Nat),
      firstCapacityFailure st al bs = some (a, used, cap) →
      used = countApprovedLikeAtCollege st a.courseId a.collegeId al ∧
        a.capacity = some cap := by
  intro bs
  induction bs with
  | nil => intro a u c h; simp [firstCapacityFailure] at h
  | cons b rest ih =>
    intro a u c h
    unfold firstCapacityFailure at h
    split at h
    · exact ih a u c h
    · rename_i cap0 hcap0
      dsimp only at h
      split at h
      · simp only [Option.some.injEq, Prod.mk.injEq] at h
        obtain ⟨ha, hu, hc⟩ := h
        subst ha; subst hu; subst hc
        exact ⟨rfl, hcap0⟩
      · exact ih a u c h

/-- C7 (amended): the bulk handler groups enrollments by (courseId,
collegeId of the first matching assignment row at any scope) and validates
each group once against the organization-wide count
`countApprovedLikeAtCollege`, also when the group's assignment is
department-scoped: whenever the batch fails a group's capacity condition,
the reported usage equals the college-wide count for that group. -/
theorem bulk_capacity_usage_is_college_scope
    (st : State) (actor : User) (ids : List Ident) (nextStatus : String)
    (now : Nat) (cid col : Ident) (used cap : Nat)
    (h : (bulkTransition st actor ids nextStatus now).2 =
      .error (.capacityExceeded cid col used cap)) :
    used = countApprovedLikeAtCollege st cid col
      (loadEnrollmentStatusConfig st).approved_like.eraseDups := by
  unfold bulkTransition at h
  dsimp only at h
  repeat' split at h
  all_goals try (simp at h)
  · rename_i e hbb
    obtain ⟨i, hi⟩ := buildBuckets_error_notAssigned st _ _ _ hbb
    rw [h] at hi
    exact absurd hi (by simp)
  · rename_i a used0 cap0 hfail
    obtain ⟨h1, h2, h3, h4⟩ := h
    obtain ⟨hu, hc⟩ := firstCapacityFailure_college_count st
      (loadEnrollmentStatusConfig st).approved_like.eraseDups _ a used0 cap0 hfail
    subst h1; subst h2; subst h3; subst h4
    exact hu

/-- C7 witness: on a department-scoped assignment (D1, capacity 1) the
bulk handler reports usage 1, the college-wide count, and rejects. -/
theorem bulk_capacity_usage_is_college_scope_witness :
    (bulkTransition stBulkDeptScope instructorD1 ["e1"] "APPROVED" 5).2 =
        .error (.capacityExceeded "C1" "O1" 1 1) ∧
      (1 : Nat) = countApprovedLikeAtCollege stBulkDeptScope "C1" "O1"
        (loadEnrollmentStatusConfig stBulkDeptScope).approved_like.eraseDups :=
  ⟨by rfl,
   bulk_capacity_usage_is_college_scope stBulkDeptScope instructorD1 ["e1"]
     "APPROVED" 5 "C1" "O1" 1 1 (by rfl)⟩

/-- C7 counterexample: the claim says a department-scoped group's usage is
counted at department level; here the department count is 0 and
`0 + 1 ≤ 1` holds, yet the handler rejects the batch with
`CapacityExceededError(1, 1)` because it counted college-wide. -/
theorem bulk_group_scope_counterexample :
    (bulkTransition stBulkDeptScope instructorD1 ["e1"] "APPROVED" 5).2 =
        .error (.capacityExceeded "C1" "O1" 1 1) ∧
      (findAssignmentForCollege stBulkDeptScope "C1" (some "O1")).map
          Assignment.departmentId = some (some "D1") ∧
      countApprovedLikeAtDepartment stBulkDeptScope "C1" (some "D1")
          ["APPROVED"] + 1 ≤ 1 :=
  ⟨by rfl, by rfl, by decide⟩

/-- `List.any` is invariant under a pointwise-equal predicate. -/
theorem any_of_pointwise {α : Type} (l : List α) (p q : α → Bool)
    (h : ∀ x, p x = q x) : l.any p = l.any q := by
  induction l with
  | nil => rfl
  | cons x xs ih => simp only [List.any_cons, h x, ih]

/-- A superadmin principal is not a college admin (the role strings
differ). -/
theorem super_not_college (u : User) (h : isSuperAdminUser u = true) :
    isCollegeAdminUser u = false := by
  unfold isSuperAdminUser at h
  have h' : up u.role = "SUPERADMIN" := by simpa using h
  unfold isCollegeAdminUser
  rw [h']
  rfl

/-- Updating a row's capacity never changes where college-wide rows
exist. -/
theorem hasCollegeWideRow_setCapacityAt (st : State) (cid col : Ident)
    (dep : Option Ident) (cap : Option Nat) (c o : Ident) :
    hasCollegeWideRow (setCapacityAt st cid col dep cap).1 c o =
      hasCollegeWideRow st c o := by
  unfold hasCollegeWideRow setCapacityAt
  dsimp only
  rw [List.any_map]
  apply any_of_pointwise
  intro x
  dsimp only [Function.comp]
  split <;> rfl

/-- Updating a row's capacity never changes where department-scoped rows
exist. -/
theorem hasDeptScopedRow_setCapacityAt (st : State) (cid col : Ident)
    (dep : Option Ident) (cap : Option Nat) (c o : Ident) :
    hasDeptScopedRow (setCapacityAt st cid col dep cap).1 c o =
      hasDeptScopedRow st c o := by
  unfold hasDeptScopedRow setCapacityAt
  dsimp only
  rw [List.any_map]
  apply any_of_pointwise
  intro x
  dsimp only [Function.comp]
  split <;> rfl

/-- Capacity updates preserve the exclusivity invariant. -/
theorem exclusivityInvariant_setCapacityAt (st : State) (cid col : Ident)
    (dep : Option Ident) (cap : Option Nat)
    (hinv : ExclusivityInvariant st) :
    ExclusivityInvariant (setCapacityAt st cid col dep cap).1 := by
  intro c o hco
  rw [hasCollegeWideRow_setCapacityAt, hasDeptScopedRow_setCapacityAt] at hco
  exact hinv c o hco

/-- Appending a department-scoped row preserves exclusivity when the pair
has no college-wide row. -/
theorem exclusivity_append_dept (st : State) (cid col d : Ident)
    (cap : Option Nat)
    (hinv : ExclusivityInvariant st)
    (hno : hasCollegeWideRow st cid col = false) :
    ExclusivityInvariant
      { st with assignments := st.assignments ++ [⟨cid, col, some d, cap⟩] } := by
  intro c o hco
  obtain ⟨hw, hd⟩ := hco
  unfold hasCollegeWideRow at hw
  unfold hasDeptScopedRow at hd
  dsimp only at hw hd
  rw [List.any_append] at hw hd
  have hsdn : ((some d : Option Ident) == (none : Option Ident)) = false := rfl
  have hsds : (some d : Option Ident).isSome = true := rfl
  simp only [List.any_cons, List.any_nil, Bool.or_false, hsdn, hsds,
    Bool.and_false, Bool.and_true] at hw hd
  rw [Bool.or_eq_true] at hd
  rcases hd with hd1 | hd2
  · exact hinv c o ⟨hw, hd1⟩
  · simp only [Bool.and_eq_true, beq_iff_eq] at hd2
    obtain ⟨hc, ho⟩ := hd2
    subst hc; subst ho
    have hcw : hasCollegeWideRow st cid col = true := hw
    rw [hno] at hcw
    exact absurd hcw (by simp)

/-- Appending a college-wide row preserves exclusivity when the pair has
no department-scoped row. -/
theorem exclusivity_append_college (st : State) (cid col : Ident)
    (cap : Option Nat)
    (hinv : ExclusivityInvariant st)
    (hno : hasDeptScopedRow st cid col = false) :
    ExclusivityInvariant
      { st with assignments := st.assignments ++ [⟨cid, col, none, cap⟩] } := by
  intro c o hco
  obtain ⟨hw, hd⟩ := hco
  unfold hasCollegeWideRow at hw
  unfold hasDeptScopedRow at hd
  dsimp only at hw hd
  rw [List.any_append] at hw hd
  have hnn : ((none : Option Ident) == (none : Option Ident)) = true := rfl
  have hns : (none : Option Ident).isSome = false := rfl
  simp only [List.any_cons, List.any_nil, Bool.or_false, hnn, hns,
    Bool.and_false, Bool.and_true] at hw hd
  rw [Bool.or_eq_true] at hw
  rcases hw with hw1 | hw2
  · exact hinv c o ⟨hw1, hd⟩
  · simp only [Bool.and_eq_true, beq_iff_eq] at hw2
    obtain ⟨hc, ho⟩ := hw2
    subst hc; subst ho
    have hds : hasDeptScopedRow st cid col = true := hd
    rw [hno] at hds
    exact absurd hds (by simp)

/-- A failed `find?` means no element satisfies the predicate. -/
theorem any_false_of_find?_none {α : Type} (l : List α) (p : α → Bool)
    (h : l.find? p = none) : l.any p = false := by
  rw [List.any_eq_false]
  rw [List.find?_eq_none] at h
  exact h

/-- When some element satisfies the predicate, `find?` succeeds. -/
theorem find?_isSome_of_any_true {α : Type} (l : List α) (p : α → Bool)
    (h : l.any p = true) : (l.find? p).isSome = true := by
  rw [List.find?_isSome]
  rw [List.any_eq_true] at h
  exact h

/-- C3 (amended): only the superadmin branch of the first assign handler
enforces the exclusivity invariant. There, a department-scoped create
fails with `ConflictError` when the college-wide row exists, a
college-wide create fails with `ConflictError` when a department-scoped
row exists, and every call preserves the exclusivity invariant. The
college-admin branches of both handlers and the second handler's
superadmin branch perform no such check. -/
theorem assign_exclusivity_superadmin
    (st : State) (actor : User) (courseId : Ident)
    (rawCollegeId : String) (rawDepartmentId : Option String)
    (capacity : Option Nat)
    (hsuper : isSuperAdminUser actor = true) :
    ((∃ ds, rawDepartmentId = some ds ∧ trimStr ds ≠ "") →
      courseId ≠ "" → trimStr rawCollegeId ≠ "" →
      hasCollegeWideRow st courseId (trimStr rawCollegeId) = true →
      (assignCourseFirst st actor courseId rawCollegeId rawDepartmentId
        capacity).2 = .error .conflictCollegeLevelExists) ∧
    ((rawDepartmentId = none ∨
        ∃ ds, rawDepartmentId = some ds ∧ trimStr ds = "") →
      courseId ≠ "" → trimStr rawCollegeId ≠ "" →
      hasDeptScopedRow st courseId (trimStr rawCollegeId) = true →
      (assignCourseFirst st actor courseId rawCollegeId rawDepartmentId
        capacity).2 = .error .conflictDeptLevelExists) ∧
    (ExclusivityInvariant st →
      ExclusivityInvariant (assignCourseFirst st actor courseId rawCollegeId
        rawDepartmentId capacity).1) := by
  have hnc := super_not_college actor hsuper
  refine ⟨?_, ?_, ?_⟩
  · rintro ⟨ds, hds, hdt⟩ h1 h2 hcw
    have hb1 : ¬((courseId == "") = true) := by simp [h1]
    have hb2 : ¬((trimStr rawCollegeId == "") = true) := by simp [h2]
    have hb3 : ¬((trimStr ds == "") = true) := by simp [hdt]
    subst hds
    obtain ⟨a', ha'⟩ :=
      Option.isSome_iff_exists.mp (find?_isSome_of_any_true _ _ hcw)
    unfold assignCourseFirst
    dsimp only
    rw [if_neg hb1, if_neg hb2,
        if_neg (show ¬(isCollegeAdminUser actor = true) by simp [hnc]),
        if_pos hsuper]
    rw [if_neg hb3]
    rw [ha']
  · intro hdng h1 h2 hds
    have hb1 : ¬((courseId == "") = true) := by simp [h1]
    have hb2 : ¬((trimStr rawCollegeId == "") = true) := by simp [h2]
    obtain ⟨a', ha'⟩ :=
      Option.isSome_iff_exists.mp (find?_isSome_of_any_true _ _ hds)
    unfold assignCourseFirst
    dsimp only
    rw [if_neg hb1, if_neg hb2,
        if_neg (show ¬(isCollegeAdminUser actor = true) by simp [hnc]),
        if_pos hsuper]
    rcases hdng with hnone | ⟨ds, hsome, hempty⟩
    · subst hnone
      rw [ha']
    · subst hsome
      dsimp only
      rw [if_pos (by simp [hempty])]
      rw [ha']
  · intro hinv
    by_cases h1 : (courseId == "") = true
    · unfold assignCourseFirst
      rw [if_pos h1]
      exact hinv
    by_cases h2 : (trimStr rawCollegeId == "") = true
    · unfold assignCourseFirst
      rw [if_neg h1, if_pos h2]
      exact hinv
    unfold assignCourseFirst
    dsimp only
    rw [if_neg h1, if_neg h2,
        if_neg (show ¬(isCollegeAdminUser actor = true) by simp [hnc]),
        if_pos hsuper]
    rcases rawDepartmentId with _ | ds
    · dsimp only
      split
      · exact hinv
      · rename_i hdc
        split
        · exact exclusivityInvariant_setCapacityAt st courseId
            (trimStr rawCollegeId) none capacity hinv
        · exact exclusivity_append_college st courseId (trimStr rawCollegeId)
            capacity hinv (any_false_of_find?_none _ _ hdc)
    · dsimp only
      by_cases h3 : (trimStr ds == "") = true
      · rw [if_pos h3]
        dsimp only
        split
        · exact hinv
        · rename_i hdc
          split
          · exact exclusivityInvariant_setCapacityAt st courseId
              (trimStr rawCollegeId) none capacity hinv
          · exact exclusivity_append_college st courseId (trimStr rawCollegeId)
              capacity hinv (any_false_of_find?_none _ _ hdc)
      · rw [if_neg h3]
        dsimp only
        split
        · exact hinv
        · rename_i hcl
          split
          · exact exclusivityInvariant_setCapacityAt st courseId
              (trimStr rawCollegeId) (some (trimStr ds)) capacity hinv
          · exact exclusivity_append_dept st courseId (trimStr rawCollegeId)
              (trimStr ds) capacity hinv (any_false_of_find?_none _ _ hcl)

/-- When no element satisfies the predicate, `find?` fails. -/
theorem find?_none_of_any_false {α : Type} (l : List α) (p : α → Bool)
    (h : l.any p = false) : l.find? p = none := by
  rw [List.find?_eq_none]
  rw [List.any_eq_false] at h
  exact h

/-- `List.map` is invariant under a pointwise-equal function. -/
theorem map_pointwise {α β : Type} (l : List α) (f g : α → β)
    (h : ∀ x, f x = g x) : l.map f = l.map g := by
  induction l with
  | nil => rfl
  | cons x xs ih => simp only [List.map_cons, h x, ih]

/-- Characterization of the first assign handler's superadmin
department-scoped path when no college-wide row exists: update the
existing exact-triple row's capacity, else insert. -/
theorem assignCourseFirst_superadmin_dept_eq
    (st : State) (actor : User) (courseId : Ident)
    (rawCollegeId ds : String) (capacity : Option Nat)
    (hsuper : isSuperAdminUser actor = true)
    (h1 : courseId ≠ "") (h2 : trimStr rawCollegeId ≠ "")
    (h3 : trimStr ds ≠ "")
    (hw : st.assignments.find? (fun a =>
        a.courseId == courseId && a.collegeId == trimStr rawCollegeId &&
          a.departmentId == none) = none) :
    assignCourseFirst st actor courseId rawCollegeId (some ds) capacity =
      match st.assignments.find? (fun a =>
          a.courseId == courseId && a.collegeId == trimStr rawCollegeId &&
            a.departmentId == some (trimStr ds)) with
      | some _ =>
        ((setCapacityAt st courseId (trimStr rawCollegeId)
            (some (trimStr ds)) capacity).1,
         .ok (setCapacityAt st courseId (trimStr rawCollegeId)
            (some (trimStr ds)) capacity).2)
      | none =>
        ({ st with assignments := st.assignments ++
            [⟨courseId, trimStr rawCollegeId, some (trimStr ds), capacity⟩] },
         .ok ⟨courseId, trimStr rawCollegeId, some (trimStr ds), capacity⟩) := by
  have hnc := super_not_college actor hsuper
  unfold assignCourseFirst
  dsimp only
  rw [if_neg (show ¬((courseId == "") = true) by simp [h1]),
      if_neg (show ¬((trimStr rawCollegeId == "") = true) by simp [h2]),
      if_neg (show ¬(isCollegeAdminUser actor = true) by simp [hnc]),
      if_pos hsuper]
  rw [if_neg (show ¬((trimStr ds == "") = true) by simp [h3])]
  rw [hw]

/-- C8 (amended): for superadmin callers the assign handler is idempotent
on the exact triple: when a row for (courseId, collegeId, departmentId)
exists the call updates its capacity instead of failing or inserting a
duplicate, and calling the handler twice with the same arguments leaves
exactly the state of calling it once. College-admin callers instead get
`ConflictError` on an existing exact triple (see the counterexample). -/
theorem assign_superadmin_idempotent
    (st : State) (actor : User) (courseId : Ident)
    (rawCollegeId ds : String) (capacity : Option Nat)
    (hsuper : isSuperAdminUser actor = true)
    (h1 : courseId ≠ "") (h2 : trimStr rawCollegeId ≠ "")
    (h3 : trimStr ds ≠ "")
    (hno : hasCollegeWideRow st courseId (trimStr rawCollegeId) = false) :
    ((∃ a0, st.assignments.find? (fun a =>
        a.courseId == courseId && a.collegeId == trimStr rawCollegeId &&
          a.departmentId == some (trimStr ds)) = some a0) →
      (assignCourseFirst st actor courseId rawCollegeId (some ds) capacity).2 =
          .ok ⟨courseId, trimStr rawCollegeId, some (trimStr ds), capacity⟩ ∧
        (assignCourseFirst st actor courseId rawCollegeId (some ds)
          capacity).1.assignments.length = st.assignments.length) ∧
    (assignCourseFirst
        (assignCourseFirst st actor courseId rawCollegeId (some ds) capacity).1
        actor courseId rawCollegeId (some ds) capacity).1 =
      (assignCourseFirst st actor courseId rawCollegeId (some ds) capacity).1 := by
  have hw : st.assignments.find? (fun a =>
      a.courseId == courseId && a.collegeId == trimStr rawCollegeId &&
        a.departmentId == none) = none :=
    find?_none_of_any_false _ _ hno
  have hr := assignCourseFirst_superadmin_dept_eq st actor courseId rawCollegeId
    ds capacity hsuper h1 h2 h3 hw
  constructor
  · rintro ⟨a0, ha0⟩
    rw [hr, ha0]
    exact ⟨rfl, by simp [setCapacityAt]⟩
  · cases hex : st.assignments.find? (fun a =>
        a.courseId == courseId && a.collegeId == trimStr rawCollegeId &&
          a.departmentId == some (trimStr ds)) with
    | some a0 =>
      rw [hr, hex]
      dsimp only
      -- second call on the updated state
      have hno2 : hasCollegeWideRow
          (setCapacityAt st courseId (trimStr rawCollegeId)
            (some (trimStr ds)) capacity).1 courseId (trimStr rawCollegeId) =
          false := by
        rw [hasCollegeWideRow_setCapacityAt]
        exact hno
      have hr2 := assignCourseFirst_superadmin_dept_eq
        (setCapacityAt st courseId (trimStr rawCollegeId)
          (some (trimStr ds)) capacity).1
        actor courseId rawCollegeId ds capacity hsuper h1 h2 h3
        (find?_none_of_any_false _ _ hno2)
      have hmem := List.mem_of_find?_eq_some hex
      have hpa0 := List.find?_some hex
      have hany : (setCapacityAt st courseId (trimStr rawCollegeId)
          (some (trimStr ds)) capacity).1.assignments.any (fun a =>
            a.courseId == courseId && a.collegeId == trimStr rawCollegeId &&
              a.departmentId == some (trimStr ds)) = true := by
        unfold setCapacityAt
        dsimp only
        rw [List.any_map]
        rw [List.any_eq_true]
        refine ⟨a0, hmem, ?_⟩
        dsimp only [Function.comp]
        rw [if_pos hpa0]
        exact hpa0
      obtain ⟨a1, ha1⟩ :=
        Option.isSome_iff_exists.mp (find?_isSome_of_any_true _ _ hany)
      rw [hr2, ha1]
      dsimp only
      unfold setCapacityAt
      dsimp only
      congr 1
      rw [List.map_map]
      apply map_pointwise
      intro x
      dsimp only [Function.comp]
      by_cases hp : (x.courseId == courseId &&
          x.collegeId == trimStr rawCollegeId &&
          x.departmentId == some (trimStr ds)) = true
      · rw [if_pos hp, if_pos hp]
      · rw [if_neg hp, if_neg hp]
    | none =>
      rw [hr, hex]
      dsimp only
      have hrowp : ((fun a => a.courseId == courseId &&
          a.collegeId == trimStr rawCollegeId &&
          a.departmentId == some (trimStr ds))
            (⟨courseId, trimStr rawCollegeId, some (trimStr ds), capacity⟩ :
              Assignment)) = true := by
        simp
      have hno2 : ({ st with assignments := st.assignments ++
          [⟨courseId, trimStr rawCollegeId, some (trimStr ds), capacity⟩] } :
            State).assignments.any (fun a =>
          a.courseId == courseId && a.collegeId == trimStr rawCollegeId &&
            a.departmentId == none) = false := by
        dsimp only
        rw [List.any_append]
        have hws : st.assignments.any (fun a =>
            a.courseId == courseId && a.collegeId == trimStr rawCollegeId &&
              a.departmentId == none) = false := hno
        rw [hws]
        simp [show ((some (trimStr ds) : Option Ident) ==
          (none : Option Ident)) = false from rfl]
      have hr2 := assignCourseFirst_superadmin_dept_eq
        ({ st with assignments := st.assignments ++
          [⟨courseId, trimStr rawCollegeId, some (trimStr ds), capacity⟩] })
        actor courseId rawCollegeId ds capacity hsuper h1 h2 h3
        (find?_none_of_any_false _ _ hno2)
      have hfind2 : ({ st with assignments := st.assignments ++
          [⟨courseId, trimStr rawCollegeId, some (trimStr ds), capacity⟩] } :
            State).assignments.find? (fun a =>
          a.courseId == courseId && a.collegeId == trimStr rawCollegeId &&
            a.departmentId == some (trimStr ds)) =
          some ⟨courseId, trimStr rawCollegeId, some (trimStr ds), capacity⟩ := by
        dsimp only
        rw [List.find?_append, hex]
        simp [List.find?, hrowp]
      rw [hr2, hfind2]
      dsimp only
      unfold setCapacityAt
      dsimp only
      congr 1
      rw [List.map_append]
      have hmain : st.assignments.map (fun a =>
          if (a.courseId == courseId && a.collegeId == trimStr rawCollegeId &&
              a.departmentId == some (trimStr ds)) = true then
            { a with capacity := capacity } else a) = st.assignments := by
        rw [show st.assignments = st.assignments.map id from
          (List.map_id st.assignments).symm]
        rw [List.map_map]
        apply List.map_congr_left
        intro a ha
        have hnp := List.find?_eq_none.mp hex a ha
        simp only [Function.comp, id]
        rw [if_neg (by simpa using hnp)]
      rw [hmain]
      simp [hrowp]

/-- C3 witness: Scenario B under a superadmin: the department-scoped
create conflicts with the existing college-wide row, the college-wide
create conflicts with an existing department row, and the invariant is
preserved. -/
theorem assign_exclusivity_superadmin_witness :
    (assignCourseFirst stCollegeWideRow superAdmin "C1" "O1" (some "D1")
        none).2 = .error .conflictCollegeLevelExists ∧
      (assignCourseFirst stDeptRow superAdmin "C1" "O1" none none).2 =
        .error .conflictDeptLevelExists ∧
      ExclusivityInvariant (assignCourseFirst stCollegeWideRow superAdmin "C1"
        "O1" (some "D1") none).1 :=
  ⟨(assign_exclusivity_superadmin stCollegeWideRow superAdmin "C1" "O1"
      (some "D1") none (by rfl)).1 ⟨"D1", rfl, by decide⟩ (by decide)
      (by decide) (by rfl),
   (assign_exclusivity_superadmin stDeptRow superAdmin "C1" "O1" none none
      (by rfl)).2.1 (Or.inl rfl) (by decide) (by decide) (by rfl),
   (assign_exclusivity_superadmin stCollegeWideRow superAdmin "C1" "O1"
      (some "D1") none (by rfl)).2.2
     (by
       intro c o hco
       obtain ⟨hw, hd⟩ := hco
       have : hasDeptScopedRow stCollegeWideRow c o = false := by
         unfold hasDeptScopedRow stCollegeWideRow
         simp
       rw [this] at hd
       exact absurd hd (by simp))⟩

/-- C3 counterexample: a college admin creates Assignment(C1, O1, D1)
while Assignment(C1, O1, null) exists; the call succeeds (no
`ConflictError`) and the resulting state holds both kinds of rows,
breaking the claimed invariant. -/
theorem assign_exclusivity_counterexample :
    (assignCourseFirst stCollegeWideRow adminO1 "C1" "O1" (some "D1")
        none).2 = .ok ⟨"C1", "O1", some "D1", none⟩ ∧
      hasCollegeWideRow (assignCourseFirst stCollegeWideRow adminO1 "C1" "O1"
        (some "D1") none).1 "C1" "O1" = true ∧
      hasDeptScopedRow (assignCourseFirst stCollegeWideRow adminO1 "C1" "O1"
        (some "D1") none).1 "C1" "O1" = true :=
  ⟨by rfl, by rfl, by rfl⟩

/-- C8 witness: a superadmin re-assign of the existing (C1, O1, D1) row
updates its capacity to 7 without adding a row, and the second identical
call changes nothing. -/
theorem assign_superadmin_idempotent_witness :
    ((assignCourseFirst stDeptRow superAdmin "C1" "O1" (some "D1")
        (some 7)).2 =
      .ok ⟨"C1", trimStr "O1", some (trimStr "D1"), some 7⟩ ∧
      (assignCourseFirst stDeptRow superAdmin "C1" "O1" (some "D1")
        (some 7)).1.assignments.length = stDeptRow.assignments.length) ∧
    (assignCourseFirst
        (assignCourseFirst stDeptRow superAdmin "C1" "O1" (some "D1")
          (some 7)).1
        superAdmin "C1" "O1" (some "D1") (some 7)).1 =
      (assignCourseFirst stDeptRow superAdmin "C1" "O1" (some "D1")
        (some 7)).1 :=
  ⟨(assign_superadmin_idempotent stDeptRow superAdmin "C1" "O1" "D1" (some 7)
      (by rfl) (by decide) (by decide) (by decide) (by rfl)).1
      ⟨⟨"C1", "O1", some "D1", some 3⟩, by rfl⟩,
   (assign_superadmin_idempotent stDeptRow superAdmin "C1" "O1" "D1" (some 7)
      (by rfl) (by decide) (by decide) (by decide) (by rfl)).2⟩

/-- C8 counterexample: in both handler copies, a college-admin call for
an existing exact triple answers `ConflictError` instead of updating the
row's capacity as the claim states. -/
theorem assign_idempotent_counterexample :
    assignCourseFirst stDeptRow adminO1 "C1" "O1" (some "D1") (some 7) =
        (stDeptRow, .error .conflictDeptAlreadyAssigned) ∧
      assignCourseSecond stDeptRow adminO1 "C1" "O1" (some "D1") (some 7) =
        (stDeptRow, .error .conflictDeptAlreadyAssigned) :=
  ⟨by rfl, by rfl⟩

/-- C9 (amended): a duplicate student self-request returns the existing
enrollment as a success with the store unchanged: no new enrollment and no
`ConflictError`. -/
theorem request_duplicate_idempotent
    (st : State) (actor : User) (courseId newId : Ident)
    (existing : Enrollment)
    (hstu : isStudentRole actor.role = true)
    (hex : st.enrollments.find? (fun e =>
      e.courseId == courseId && e.studentId == actor.id) = some existing) :
    requestEnrollment st actor courseId newId = (st, .ok existing) := by
  unfold requestEnrollment
  rw [if_neg (by simp [hstu])]
  dsimp only
  rw [hex]

/-- C9 counterexample: with an existing enrollment for (C1, s1), the
self-request handler answers `ok` with that row (the claim says it fails
with `ConflictError`); the store still holds exactly one enrollment. -/
theorem request_duplicate_counterexample :
    requestEnrollment stDupRequest studentS1 "C1" "new1" =
        (stDupRequest, .ok ⟨"e0", "s1", "C1", none, "PENDING", none⟩) ∧
      (requestEnrollment stDupRequest studentS1 "C1" "new1").1.enrollments.length
        = 1 :=
  ⟨by rfl, by rfl⟩

/-- C9 witness: the duplicate self-request returns the stored pending
enrollment unchanged. -/
theorem request_duplicate_idempotent_witness :
    requestEnrollment stDupRequest studentS1 "C1" "new2" =
      (stDupRequest, .ok ⟨"e0", "s1", "C1", none, "PENDING", none⟩) :=
  request_duplicate_idempotent stDupRequest studentS1 "C1" "new2"
    ⟨"e0", "s1", "C1", none, "PENDING", none⟩ (by rfl) (by rfl)

/-- C10: when the stored status-config record exists but a field is not
an array, loading yields `[]` for that field instead of the defaults; with
a malformed `allowed` every transition fails status validation, and with a
malformed `approved_like` no transition can fail for capacity. -/
theorem malformed_status_config_yields_empty_lists
    (st : State) (r : RawStatusConfig) (hset : st.statusSetting = some r) :
    (r.allowed = none →
      (loadEnrollmentStatusConfig st).allowed = [] ∧
      ∀ (id nextStatus : String) (now : Nat),
        transitionEnrollment st id nextStatus now =
          (st, .error .invalidStatus)) ∧
    (r.approved_like = none →
      (loadEnrollmentStatusConfig st).approved_like = [] ∧
      ∀ (id nextStatus : String) (now : Nat) (used cap : Nat),
        (transitionEnrollment st id nextStatus now).2 ≠
          .error (.capacityExceeded used cap)) := by
  constructor
  · intro hna
    have hcfg : (loadEnrollmentStatusConfig st).allowed = [] := by
      unfold loadEnrollmentStatusConfig
      rw [hset]
      dsimp only
      rw [hna]
      rfl
    refine ⟨hcfg, ?_⟩
    intro id nextStatus now
    unfold transitionEnrollment admissionCheck
    dsimp only
    rw [hcfg]
    rfl
  · intro hna
    have hcfg : (loadEnrollmentStatusConfig st).approved_like = [] := by
      unfold loadEnrollmentStatusConfig
      rw [hset]
      dsimp only
      rw [hna]
      rfl
    refine ⟨hcfg, ?_⟩
    have hchk : ∀ (id nextStatus : String) (used cap : Nat),
        admissionCheck st id nextStatus ≠
          .error (.capacityExceeded used cap) := by
      intro id nextStatus used cap
      unfold admissionCheck
      dsimp only
      rw [hcfg]
      repeat' split
      all_goals simp_all
    intro id nextStatus now used cap hcontra
    unfold transitionEnrollment at hcontra
    split at hcontra
    · rename_i e hac
      simp at hcontra
      rw [hcontra] at hac
      exact hchk id nextStatus used cap hac
    · simp at hcontra

/-- C10 witness: concrete malformed records: `allowed` malformed makes
the APPROVED transition invalid; `approved_like` malformed lets it succeed
with no capacity check even at capacity 0. -/
theorem malformed_status_config_witness :
    (loadEnrollmentStatusConfig stMalformedAllowed).allowed = [] ∧
      transitionEnrollment stMalformedAllowed "e1" "APPROVED" 5 =
        (stMalformedAllowed, .error .invalidStatus) ∧
      (loadEnrollmentStatusConfig stMalformedApprovedLike).approved_like =
        [] ∧
      (transitionEnrollment stMalformedApprovedLike "e1" "APPROVED" 5).2 ≠
        .error (.capacityExceeded 0 0) :=
  ⟨((malformed_status_config_yields_empty_lists stMalformedAllowed
      ⟨none, some ["APPROVED"]⟩ rfl).1 rfl).1,
   ((malformed_status_config_yields_empty_lists stMalformedAllowed
      ⟨none, some ["APPROVED"]⟩ rfl).1 rfl).2 "e1" "APPROVED" 5,
   ((malformed_status_config_yields_empty_lists stMalformedApprovedLike
      ⟨some ["PENDING", "APPROVED", "REJECTED"], none⟩ rfl).2 rfl).1,
   ((malformed_status_config_yields_empty_lists stMalformedApprovedLike
      ⟨some ["PENDING", "APPROVED", "REJECTED"], none⟩ rfl).2 rfl).2
     "e1" "APPROVED" 5 0 0⟩

/-- C4: the single-enrollment handler is a read phase (`admissionCheck`)
followed by an unguarded write (`applyTransition`) with no transaction or
lock. In the interleaving where two requests both run their read against
the same snapshot, both pass the capacity-1 check and both commit, leaving
2 approved-like enrollments: the capacity bound is exceeded, contradicting
the claim that the count-and-transition is atomic. -/
theorem race_overbooks_capacity :
    admissionCheck stRace "e1" "APPROVED" =
        .ok ⟨"e1", "s1", "C1", none, "PENDING", none⟩ ∧
      admissionCheck stRace "e2" "APPROVED" =
        .ok ⟨"e2", "s2", "C1", none, "PENDING", none⟩ ∧
      stRace.assignments = [⟨"C1", "O1", none, some 1⟩] ∧
      countApprovedLikeAtCollege (raceTwoApprovals stRace "e1" "e2" "APPROVED" 7)
        "C1" "O1" ["APPROVED"] = 2 :=
  ⟨by rfl, by rfl, by rfl, by rfl⟩

/-- C5 counterexample: with no assignment rows and a course authored
directly for O1, the admission-path resolver `findAssignmentForContext`
returns `none`; the claim's virtual-assignment fallback exists only in the
other resolver copy. -/
theorem resolve_no_virtual_counterexample :
    findAssignmentForContext stDirectCourse "C1" (some "O1") none = none ∧
      (stDirectCourse.courses.find? (fun c => c.id == "C1")).bind
          Course.collegeId = some "O1" ∧
      findAssignmentForCollegeWithVirtual stDirectCourse "C1" (some "O1") =
        some ⟨"C1", "O1", none, none⟩ :=
  ⟨by rfl, by rfl, by rfl⟩

/-- C5 (amended): resolution is split across two functions.
`findAssignmentForContext` applies department precedence and the
college-wide fallback but has no virtual fallback (and yields `none` for a
falsy college). `findAssignmentForCollegeWithVirtual` (the request-path
copy) returns the first assignment row at any scope with no department
precedence, and only it falls back to the capacity-unlimited virtual
assignment when the course's direct `collegeId` equals the queried
organization. -/
theorem resolve_split_behavior
    (st : State) (courseId cid d : Ident) (a : Assignment) :
    (st.assignments.find? (fun x => x.courseId == courseId &&
        x.collegeId == cid && x.departmentId == some d) = some a →
      findAssignmentForContext st courseId (some cid) (some d) = some a) ∧
    (st.assignments.find? (fun x => x.courseId == courseId &&
        x.collegeId == cid && x.departmentId == some d) = none →
      findAssignmentForContext st courseId (some cid) (some d) =
        st.assignments.find? (fun x => x.courseId == courseId &&
          x.collegeId == cid && x.departmentId == none)) ∧
    (findAssignmentForContext st courseId (some cid) none =
      st.assignments.find? (fun x => x.courseId == courseId &&
        x.collegeId == cid && x.departmentId == none)) ∧
    (findAssignmentForContext st courseId none (some d) = none) ∧
    (st.assignments.find? (fun x => x.courseId == courseId &&
        x.collegeId == cid) = some a →
      findAssignmentForCollegeWithVirtual st courseId (some cid) = some a) ∧
    (st.assignments.find? (fun x => x.courseId == courseId &&
        x.collegeId == cid) = none →
      st.courses.find? (fun c => c.id == courseId) =
        some ⟨courseId, some cid⟩ →
      findAssignmentForCollegeWithVirtual st courseId (some cid) =
        some ⟨courseId, cid, none, none⟩) := by
  refine ⟨?_, ?_, ?_, ?_, ?_, ?_⟩
  · intro h
    unfold findAssignmentForContext
    simp [h]
  · intro h
    unfold findAssignmentForContext
    simp [h]
  · unfold findAssignmentForContext
    simp
  · rfl
  · intro h
    unfold findAssignmentForCollegeWithVirtual
    simp [h]
  · intro h hc
    unfold findAssignmentForCollegeWithVirtual
    simp [h, hc]

/-- C5 witness: department precedence returns the D1 row; the virtual
fallback returns a capacity-unlimited assignment for a directly-authored
course. -/
theorem resolve_split_behavior_witness :
    findAssignmentForContext stBulkDeptScope "C1" (some "O1") (some "D1") =
        some ⟨"C1", "O1", some "D1", some 1⟩ ∧
      findAssignmentForCollegeWithVirtual stDirectCourse "C1" (some "O1") =
        some ⟨"C1", "O1", none, none⟩ :=
  ⟨(resolve_split_behavior stBulkDeptScope "C1" "O1" "D1"
      ⟨"C1", "O1", some "D1", some 1⟩).1 (by rfl),
   (resolve_split_behavior stDirectCourse "C1" "O1" "D1"
      ⟨"C1", "O1", some "D1", some 1⟩).2.2.2.2.2 (by rfl) (by rfl)⟩

end LMS
